import Mathlib

/-!
Verification of the storage-consistency-actions daemon
(`lib/rucio/daemons/storage/consistency/actions.py`).

The Python source is shallowly embedded below.  Conventions of the
embedding:

* JSON documents (the per-run `_stats.json` status records) are modelled
  as association lists `JDoc := List (String × JVal)`; `dict.update`
  writes are modelled by `dictUpdate`, whose lookup semantics (later
  writes shadow earlier ones, untouched keys survive) match Python
  dictionaries as observed through key lookup.
* File contents are passed in as `List String` (one entry per line) and
  collaborator calls (`get_rse_id`/`lfns2pfns`/`add_quarantined_replicas`,
  `declare_bad_file_replicas`) are abstracted by a success predicate per
  item; a Python exception is modelled by `Except`/a `raised` flag.
* Wall-clock values (`time.time()`) are passed in as parameters `t0 t1`.
* The module-level name `force_proceed` read at actions.py lines 397 and
  508 is never assigned at module scope in the source, so evaluating it
  raises `NameError`; the embedding models the global as
  `fp_global : Option Bool` where `none` means the name is unbound and
  its evaluation is the `Except.error` outcome.
-/

/-- One JSON value as stored in a run status record. -/
inductive JVal where
  | num (q : ℚ)
  | str (s : String)
  | nul
  | obj (fields : List (String × JVal))

/-- A JSON object document, as an association list observed through
`List.lookup` (first binding wins). -/
abbrev JDoc := List (String × JVal)

/-- Python `dict.update`: bindings of `upd` shadow those of `base`;
keys absent from `upd` keep their `base` value.  (Represented by
prepending, since `List.lookup` returns the first match.) -/
def dictUpdate (base upd : JDoc) : JDoc := upd ++ base

/-- Observation helper: look a key up and require a string value. -/
def lookupStr (d : JDoc) (k : String) : Option String :=
  match d.lookup k with
  | some (JVal.str s) => some s
  | _ => none

/-- Observation helper: look a key up and require a numeric value. -/
def lookupNum (d : JDoc) (k : String) : Option ℚ :=
  match d.lookup k with
  | some (JVal.num q) => some q
  | _ => none

/-- Python `str.strip()` (actions.py line 204/205 `line.strip()`):
drop leading and trailing whitespace. -/
def strip (s : String) : String :=
  ⟨((s.data.dropWhile Char.isWhitespace).reverse.dropWhile Char.isWhitespace).reverse⟩

/-- `Stats.save` (actions.py lines 155-164).  The `try`/`except` covers
only opening/reading the file (`read_result = none` models a failed
read and degrades to the empty string); `json.loads(data or "\x7b\x7d")`
runs OUTSIDE the `try`, so a parse failure (`json_loads _ = none`)
raises and the write never happens (result `none`).  On success the
existing document is merged with `self.Data` and written back. -/
def stats_save (read_result : Option String) (json_loads : String → Option JDoc)
    (self_data : JDoc) : Option JDoc :=
  let data := read_result.getD ""
  match json_loads (if data = "" then "\x7b\x7d" else data) with
  | none => none
  | some base => some (dictUpdate base self_data)

/-- `cmp2dark` (actions.py lines 181-220), the output artifact only:
both input files are read line by line into sets of stripped strings
(`set(line.strip() for line in a_list)`), intersected, and the sorted
intersection is written out.  Sets of strings are represented as
deduplicated lists; `List.insertionSort (· ≤ ·)` is Python
`sorted` (lexicographic string order). -/
def cmp2dark (new_list old_list : List String) : List String :=
  List.insertionSort (· ≤ ·)
    ((new_list.map strip).dedup ∩ (old_list.map strip))

/-- The `cmp2dark` section written into the stats file
(actions.py lines 191-220), final content after the `done` update. -/
def cmp2dark_stats_record (t0 t1 : ℚ) (new_list old_list out_list : String) : JDoc :=
  [("elapsed", JVal.num (t1 - t0)), ("start_time", JVal.num t0),
   ("end_time", JVal.num t1), ("new_list", JVal.str new_list),
   ("old_list", JVal.str old_list), ("out_list", JVal.str out_list),
   ("status", JVal.str "done")]

/-- Python `re.sub("_stats.json$", repl, fn)` for the run-file names used
by `process_dark_files` (actions.py lines 361-366); `"_stats.json"` has
11 characters. -/
def sub_stats_suffix (fn repl : String) : String := fn.dropRight 11 ++ repl

/-- Rendering of the Python format `"%3.2f"` for the nonnegative
percentages arising in the safeguard messages (actions.py lines 443-455
and 544-556): two digits after the decimal point.  Rounding at the
half-cent is half-up here while Python floats round half-even; the
values compared in this development are exact multiples of a cent, where
the two agree. -/
def format_3_2f (q : ℚ) : String :=
  let cents : ℤ := (q.num * 100 * 2 + (q.den : ℤ)) / (2 * (q.den : ℤ))
  let whole := cents / 100
  let frac := cents % 100
  toString whole ++ "." ++ (if frac < 10 then "0" ++ toString frac else toString frac)

/-- The safeguard condition
`confirmed/max_files_at_site < maxfraction or force_proceed is True`
(actions.py lines 396-397 and 508) evaluated under Python semantics:
the division and comparison happen first; only if the fraction is not
below the threshold is the name `force_proceed` evaluated, and since the
module never binds it, `fp_global = none` raises `NameError`
(`Except.error ()`).  `Except.ok true` means the phase proceeds,
`Except.ok false` means the abort branch runs. -/
def cc_proceed_cond (confirmed total : ℕ) (maxfraction : ℚ)
    (fp_global : Option Bool) : Except Unit Bool :=
  if (confirmed : ℚ) / (total : ℚ) < maxfraction then Except.ok true
  else
    match fp_global with
    | some b => Except.ok b
    | none => Except.error ()

/-- The per-item action loop shared by both phases (actions.py lines
408-427 and 518-528).  Each Bool is one item outcome (`true` = the
collaborator calls succeeded).  There is no `try`/`except` inside the
loop, so the first failing item raises out of the whole function:
the result is (number of items successfully processed before the first
failure, whether the loop ran to completion). -/
def batch_loop : List Bool → ℕ × Bool
  | [] => (0, true)
  | b :: rest =>
    if b then ((batch_loop rest).1 + 1, (batch_loop rest).2) else (0, false)

/-- Result of one `cc_dark`/`cc_miss` phase: the final value of its
section in the stats file (on a raise this is the `started` document
written at phase start, the last write that happened), the number of
quarantine/invalidation requests actually issued, and whether the
function raised. -/
structure PhaseOutcome where
  record : JDoc
  requests : ℕ
  raised : Bool

/-- Result of `process_dark_files`: the phase outcome plus the
`cmp2dark` section that the embedded `cmp2dark` call wrote. -/
structure DarkOutcome where
  phase : PhaseOutcome
  cmp2dark_record : JDoc

/-- The initial `cc_dark` section written at phase start
(actions.py lines 350-358). -/
def cc_dark_init (t0 : ℚ) (oldenough_run : String) : JDoc :=
  [("start_time", JVal.num t0), ("end_time", JVal.nul),
   ("initial_dark_files", JVal.num 0), ("confirmed_dark_files", JVal.num 0),
   ("x-check_run", JVal.str oldenough_run), ("status", JVal.str "started")]

/-- `process_dark_files` (actions.py lines 335-458).  Writes the
`started` `cc_dark` section, runs `cmp2dark` on the two dark lists,
counts lines, then evaluates the safeguard: on `ok true` it loops over
the confirmed files issuing quarantine requests (`quarantine_ok` is the
per-item collaborator outcome) and writes the `done` update; on
`ok false` it writes the `ABORTED` update with the percentage reason;
on `error` (unbound `force_proceed`) it raises with only the `started`
section written. -/
def process_dark_files (t0 t1 : ℚ) (latest_run oldenough_run : String)
    (latest_dark_lines oldenough_dark_lines : List String)
    (quarantine_ok : String → Bool) (maxdarkfraction : ℚ)
    (max_files_at_site : ℕ) (fp_global : Option Bool) : DarkOutcome :=
  let confirmed := cmp2dark latest_dark_lines oldenough_dark_lines
  let dark_files := latest_dark_lines.length
  let confirmed_dark_files := confirmed.length
  let cmp_rec := cmp2dark_stats_record t0 t1
    (sub_stats_suffix latest_run "_D.list") (sub_stats_suffix oldenough_run "_D.list")
    (sub_stats_suffix latest_run "_DeletionList.csv")
  let cc0 : JDoc := cc_dark_init t0 oldenough_run
  match cc_proceed_cond confirmed_dark_files max_files_at_site maxdarkfraction fp_global with
  | Except.error _ => ⟨⟨cc0, 0, true⟩, cmp_rec⟩
  | Except.ok true =>
    let r := batch_loop (confirmed.map quarantine_ok)
    if r.2 then
      ⟨⟨dictUpdate cc0
          [("end_time", JVal.num t1), ("initial_dark_files", JVal.num dark_files),
           ("confirmed_dark_files", JVal.num r.1), ("status", JVal.str "done")],
        r.1, false⟩, cmp_rec⟩
    else ⟨⟨cc0, r.1, true⟩, cmp_rec⟩
  | Except.ok false =>
    let darkperc : ℚ := 100 * (confirmed_dark_files : ℚ) / (max_files_at_site : ℚ)
    ⟨⟨dictUpdate cc0
        [("end_time", JVal.num t1), ("initial_dark_files", JVal.num dark_files),
         ("confirmed_dark_files", JVal.num 0), ("status", JVal.str "ABORTED"),
         ("aborted_reason", JVal.str (format_3_2f darkperc ++ "% dark"))],
      0, false⟩, cmp_rec⟩

/-- The initial `cc_miss` section written at phase start
(actions.py lines 483-491); `x-check_run` is the possibly-absent
comparison run (`None` when the dark phase found none). -/
def cc_miss_init (t0 : ℚ) (oldenough_run : Option String) : JDoc :=
  [("start_time", JVal.num t0), ("end_time", JVal.nul),
   ("initial_miss_files", JVal.num 0), ("confirmed_miss_files", JVal.num 0),
   ("x-check_run", match oldenough_run with | some s => JVal.str s | none => JVal.nul),
   ("status", JVal.str "started")]

/-- `process_miss_files` (actions.py lines 465-560).  Writes the
`started` `cc_miss` section, counts the missing-list lines, evaluates
the safeguard, and on `ok true` loops over the missing files issuing
invalidation requests; the `done` update stores the invalidated count
under the key `confirmed_miss`, while the `ABORTED` update stores 0
under `confirmed_miss_files` (the key initialised at phase start). -/
def process_miss_files (t0 t1 : ℚ) (oldenough_run : Option String)
    (miss_lines : List String) (invalidate_ok : String → Bool)
    (maxmissfraction : ℚ) (max_files_at_site : ℕ)
    (fp_global : Option Bool) : PhaseOutcome :=
  let miss_files := miss_lines.length
  let cc0 : JDoc := cc_miss_init t0 oldenough_run
  match cc_proceed_cond miss_files max_files_at_site maxmissfraction fp_global with
  | Except.error _ => ⟨cc0, 0, true⟩
  | Except.ok true =>
    let r := batch_loop (miss_lines.map invalidate_ok)
    if r.2 then
      ⟨dictUpdate cc0
        [("end_time", JVal.num t1), ("initial_miss_files", JVal.num miss_files),
         ("confirmed_miss", JVal.num r.1), ("status", JVal.str "done")],
       r.1, false⟩
    else ⟨cc0, r.1, true⟩
  | Except.ok false =>
    let missperc : ℚ := 100 * (miss_files : ℚ) / (max_files_at_site : ℚ)
    ⟨dictUpdate cc0
      [("end_time", JVal.num t1), ("initial_miss_files", JVal.num miss_files),
       ("confirmed_miss_files", JVal.num 0), ("status", JVal.str "ABORTED"),
       ("aborted_reason", JVal.str (format_3_2f missperc ++ "% miss"))],
     0, false⟩

/-- `was_cc_attempted` (actions.py lines 300-312): `none` models a file
that could not be opened (the Python function returns `None`); otherwise
`some` of whether the stats document contains a `cc_dark` or `cc_miss`
key. -/
def was_cc_attempted (stats : Option JDoc) : Option Bool :=
  match stats with
  | none => none
  | some doc => some ((doc.lookup "cc_dark").isSome || (doc.lookup "cc_miss").isSome)

/-- Comparison on the character lists underlying filenames, used to
model Python string sorting executably; `charsLe a b = true` iff
`a` is lexicographically at most `b`. -/
def charsLe : List Char → List Char → Bool
  | [], _ => true
  | _ :: _, [] => false
  | a :: as, b :: bs => if a < b then true else if b < a then false else charsLe as bs

/-- `list_runs_by_age` (actions.py lines 251-267): each run file name is
paired with its timestamp (modelled in whole days, matching the `.days`
granularity of the source); ages are taken relative to the reference
run and the mapping is sorted by file name in reverse (descending)
order, i.e. newest run first, as `sorted(runs.items(), reverse=True)`
does for the distinct keys of the `runs` dictionary. -/
def list_runs_by_age (runs : List (String × Int)) (reftime : Int) : List (String × Int) :=
  List.insertionSort (fun a b : String × Int => charsLe b.1.data a.1.data)
    (runs.map (fun rt => (rt.1, reftime - rt.2)))

/-- The comparison-run selection in `deckard` (actions.py lines
643-647): the first key of the (newest-first) age mapping whose age is
STRICTLY greater than `minagedark`, or `none` when no key qualifies
(`[k for k in d if d[k] > minagedark]`, taken at index 0 only when
nonempty). -/
def select_oldenough (d : List (String × Int)) (minagedark : Int) : Option String :=
  ((d.filter (fun kv => minagedark < kv.2)).map Prod.fst).head?

/-- The processing gate in `deckard` (actions.py line 635):
`max_files_at_site > 0 and (was_cc_attempted(latest_run) is False or
force_proceed is True)`.  Here `force_proceed` is the parameter of
`deckard`, which IS bound. -/
def deckard_gate (max_files_at_site : ℕ) (attempted : Option Bool)
    (force_proceed : Bool) : Bool :=
  decide (0 < max_files_at_site) && ((attempted == some false) || force_proceed)

/-- Result of one `deckard` invocation for one endpoint: whether the
gate passed, the outcome of each phase (`none` = the phase never
started), and the stats document content after the run. -/
structure DeckardOutcome where
  processed : Bool
  cc_dark : Option PhaseOutcome
  cc_miss : Option PhaseOutcome
  stats_after : JDoc

/-- Total number of quarantine plus invalidation requests issued by one
`deckard` invocation. -/
def issued_requests (o : DeckardOutcome) : ℕ :=
  (match o.cc_dark with | some p => p.requests | none => 0) +
  (match o.cc_miss with | some p => p.requests | none => 0)

/-- `deckard` (actions.py lines 567-671) for an endpoint that has scans.
`stats_doc` is the parsed latest `_stats.json` (`none` = unreadable);
`max_files_at_site` is the maximum of the three counts (line 622); the
gate (line 635) guards all processing.  When the gate passes, the dark
phase runs only if a comparison run strictly older than `minagedark`
exists (lines 643-656), and `process_miss_files` (line 663) runs
afterwards unless the dark phase raised, in which case the exception
propagates and the missing phase never starts. -/
def deckard (stats_doc : Option JDoc)
    (scanner_files dbdump_before_files dbdump_after_files : ℕ)
    (minagedark : Int) (runs_by_age : List (String × Int))
    (maxdarkfraction maxmissfraction : ℚ)
    (force_proceed : Bool) (fp_global : Option Bool)
    (latest_run : String) (dark_list_of : String → List String)
    (miss_lines : List String)
    (quarantine_ok invalidate_ok : String → Bool)
    (t0 t1 : ℚ) : DeckardOutcome :=
  let stats0 := stats_doc.getD []
  let max_files_at_site := max scanner_files (max dbdump_before_files dbdump_after_files)
  if deckard_gate max_files_at_site (was_cc_attempted stats_doc) force_proceed then
    match select_oldenough runs_by_age minagedark with
    | some oldenough_run =>
      let dk := process_dark_files t0 t1 latest_run oldenough_run
        (dark_list_of latest_run) (dark_list_of oldenough_run) quarantine_ok
        maxdarkfraction max_files_at_site fp_global
      let stats1 := dictUpdate stats0
        [("cmp2dark", JVal.obj dk.cmp2dark_record), ("cc_dark", JVal.obj dk.phase.record)]
      if dk.phase.raised then ⟨true, some dk.phase, none, stats1⟩
      else
        let ms := process_miss_files t0 t1 (some oldenough_run) miss_lines invalidate_ok
          maxmissfraction max_files_at_site fp_global
        ⟨true, some dk.phase, some ms, dictUpdate stats1 [("cc_miss", JVal.obj ms.record)]⟩
    | none =>
      let ms := process_miss_files t0 t1 none miss_lines invalidate_ok
        maxmissfraction max_files_at_site fp_global
      ⟨true, none, some ms, dictUpdate stats0 [("cc_miss", JVal.obj ms.record)]⟩
  else ⟨false, none, none, stats0⟩

/-- `deckard_loop` (actions.py lines 675-684): a plain `for` over the
endpoints with no `try` inside, so the first endpoint whose `deckard`
call raises (`false` in `outcomes`) aborts the loop.  Result: (number
of endpoints whose processing was begun this cycle, whether the loop
ran to completion). -/
def deckard_loop_run : List Bool → ℕ × Bool
  | [] => (0, true)
  | ok :: rest =>
    if ok then ((deckard_loop_run rest).1 + 1, (deckard_loop_run rest).2)
    else (1, false)

/-- One iteration of the `while` loop in `actions_loop` (actions.py
lines 710-733): the whole `deckard_loop` call sits inside
`try ... except Exception`, so whatever happens the cycle itself
completes (second component `true`) and the daemon survives to the next
cycle; the first component is the number of endpoints begun. -/
def actions_loop_cycle (outcomes : List Bool) : ℕ × Bool :=
  ((deckard_loop_run outcomes).1, true)

/- ------------------------------------------------------------------ -/
/- Helper lemmas                                                      -/
/- ------------------------------------------------------------------ -/

lemma cmp2dark_mem (A B : List String) (x : String) :
    x ∈ cmp2dark A B ↔ x ∈ A.map strip ∧ x ∈ B.map strip := by
  unfold cmp2dark
  rw [(List.perm_insertionSort _ _).mem_iff, List.mem_inter_iff, List.mem_dedup]

lemma cmp2dark_sorted (A B : List String) :
    List.Sorted (· ≤ ·) (cmp2dark A B) :=
  List.sorted_insertionSort _ _

lemma cmp2dark_nodup (A B : List String) : (cmp2dark A B).Nodup :=
  (List.perm_insertionSort _ _).nodup_iff.mpr
    ((List.nodup_dedup _).inter _)

lemma cmp2dark_length (A B : List String) :
    (cmp2dark A B).length = ((A.map strip).dedup ∩ (B.map strip)).length :=
  (List.perm_insertionSort _ _).length_eq

lemma batch_loop_eq (l : List Bool) :
    batch_loop l = ((l.takeWhile id).length, l.all id) := by
  induction l with
  | nil => rfl
  | cons b rest ih =>
    cases b <;> simp [batch_loop, ih, List.takeWhile_cons, List.all_cons]

lemma batch_loop_all (l : List Bool) (h : l.all id = true) :
    batch_loop l = (l.length, true) := by
  rw [batch_loop_eq, h]
  have : l.takeWhile id = l := by
    rw [List.takeWhile_eq_self_iff]
    intro a ha
    exact List.all_eq_true.mp h a ha
  rw [this]

lemma process_dark_files_raises (t0 t1 : ℚ) (lr oer : String) (dl ol : List String)
    (okq : String → Bool) (m : ℚ) (total : ℕ) (fp : Option Bool)
    (h : cc_proceed_cond (cmp2dark dl ol).length total m fp = Except.error ()) :
    process_dark_files t0 t1 lr oer dl ol okq m total fp
      = ⟨⟨cc_dark_init t0 oer, 0, true⟩,
         cmp2dark_stats_record t0 t1 (sub_stats_suffix lr "_D.list")
           (sub_stats_suffix oer "_D.list") (sub_stats_suffix lr "_DeletionList.csv")⟩ := by
  simp only [process_dark_files, h]

lemma process_dark_files_done (t0 t1 : ℚ) (lr oer : String) (dl ol : List String)
    (okq : String → Bool) (m : ℚ) (total : ℕ) (fp : Option Bool) (n : ℕ)
    (h : cc_proceed_cond (cmp2dark dl ol).length total m fp = Except.ok true)
    (hb : batch_loop ((cmp2dark dl ol).map okq) = (n, true)) :
    process_dark_files t0 t1 lr oer dl ol okq m total fp
      = ⟨⟨dictUpdate (cc_dark_init t0 oer)
            [("end_time", JVal.num t1), ("initial_dark_files", JVal.num dl.length),
             ("confirmed_dark_files", JVal.num n), ("status", JVal.str "done")],
          n, false⟩,
         cmp2dark_stats_record t0 t1 (sub_stats_suffix lr "_D.list")
           (sub_stats_suffix oer "_D.list") (sub_stats_suffix lr "_DeletionList.csv")⟩ := by
  simp only [process_dark_files, h]
  rw [hb]
  rfl

lemma process_dark_files_item_raise (t0 t1 : ℚ) (lr oer : String) (dl ol : List String)
    (okq : String → Bool) (m : ℚ) (total : ℕ) (fp : Option Bool) (n : ℕ)
    (h : cc_proceed_cond (cmp2dark dl ol).length total m fp = Except.ok true)
    (hb : batch_loop ((cmp2dark dl ol).map okq) = (n, false)) :
    process_dark_files t0 t1 lr oer dl ol okq m total fp
      = ⟨⟨cc_dark_init t0 oer, n, true⟩,
         cmp2dark_stats_record t0 t1 (sub_stats_suffix lr "_D.list")
           (sub_stats_suffix oer "_D.list") (sub_stats_suffix lr "_DeletionList.csv")⟩ := by
  simp only [process_dark_files, h]
  rw [hb]
  rfl

lemma process_dark_files_aborts (t0 t1 : ℚ) (lr oer : String) (dl ol : List String)
    (okq : String → Bool) (m : ℚ) (total : ℕ) (fp : Option Bool)
    (h : cc_proceed_cond (cmp2dark dl ol).length total m fp = Except.ok false) :
    process_dark_files t0 t1 lr oer dl ol okq m total fp
      = ⟨⟨dictUpdate (cc_dark_init t0 oer)
            [("end_time", JVal.num t1), ("initial_dark_files", JVal.num dl.length),
             ("confirmed_dark_files", JVal.num 0), ("status", JVal.str "ABORTED"),
             ("aborted_reason", JVal.str
               (format_3_2f (100 * ((cmp2dark dl ol).length : ℚ) / (total : ℚ)) ++ "% dark"))],
          0, false⟩,
         cmp2dark_stats_record t0 t1 (sub_stats_suffix lr "_D.list")
           (sub_stats_suffix oer "_D.list") (sub_stats_suffix lr "_DeletionList.csv")⟩ := by
  simp only [process_dark_files, h]

lemma process_miss_files_raises (t0 t1 : ℚ) (oe : Option String) (lines : List String)
    (okf : String → Bool) (m : ℚ) (total : ℕ) (fp : Option Bool)
    (h : cc_proceed_cond lines.length total m fp = Except.error ()) :
    process_miss_files t0 t1 oe lines okf m total fp
      = ⟨cc_miss_init t0 oe, 0, true⟩ := by
  simp only [process_miss_files, h]

lemma process_miss_files_done (t0 t1 : ℚ) (oe : Option String) (lines : List String)
    (okf : String → Bool) (m : ℚ) (total : ℕ) (fp : Option Bool) (n : ℕ)
    (h : cc_proceed_cond lines.length total m fp = Except.ok true)
    (hb : batch_loop (lines.map okf) = (n, true)) :
    process_miss_files t0 t1 oe lines okf m total fp
      = ⟨dictUpdate (cc_miss_init t0 oe)
           [("end_time", JVal.num t1), ("initial_miss_files", JVal.num lines.length),
            ("confirmed_miss", JVal.num n), ("status", JVal.str "done")],
         n, false⟩ := by
  simp only [process_miss_files, h]
  rw [hb]
  rfl

lemma process_miss_files_item_raise (t0 t1 : ℚ) (oe : Option String) (lines : List String)
    (okf : String → Bool) (m : ℚ) (total : ℕ) (fp : Option Bool) (n : ℕ)
    (h : cc_proceed_cond lines.length total m fp = Except.ok true)
    (hb : batch_loop (lines.map okf) = (n, false)) :
    process_miss_files t0 t1 oe lines okf m total fp
      = ⟨cc_miss_init t0 oe, n, true⟩ := by
  simp only [process_miss_files, h]
  rw [hb]
  rfl

lemma process_miss_files_aborts (t0 t1 : ℚ) (oe : Option String) (lines : List String)
    (okf : String → Bool) (m : ℚ) (total : ℕ) (fp : Option Bool)
    (h : cc_proceed_cond lines.length total m fp = Except.ok false) :
    process_miss_files t0 t1 oe lines okf m total fp
      = ⟨dictUpdate (cc_miss_init t0 oe)
           [("end_time", JVal.num t1), ("initial_miss_files", JVal.num lines.length),
            ("confirmed_miss_files", JVal.num 0), ("status", JVal.str "ABORTED"),
            ("aborted_reason", JVal.str
              (format_3_2f (100 * (lines.length : ℚ) / (total : ℚ)) ++ "% miss"))],
         0, false⟩ := by
  simp only [process_miss_files, h]

/- ------------------------------------------------------------------ -/
/- C7                                                                  -/
/- ------------------------------------------------------------------ -/

/-- C7: `cmp2dark` is symmetric in its two input lists, its output is
exactly the set intersection of the stripped path strings of the two
inputs, duplicate-free, sorted lexicographically, and re-running on the
same inputs produces the identical output. -/
theorem cmp2dark_symmetric_sorted_intersection (A B : List String) :
    cmp2dark A B = cmp2dark B A
  ∧ (∀ x, x ∈ cmp2dark A B ↔ x ∈ A.map strip ∧ x ∈ B.map strip)
  ∧ List.Sorted (· ≤ ·) (cmp2dark A B)
  ∧ (cmp2dark A B).Nodup
  ∧ cmp2dark A B = cmp2dark A B := by
  refine ⟨?_, cmp2dark_mem A B, cmp2dark_sorted A B, cmp2dark_nodup A B, rfl⟩
  have hperm : (cmp2dark A B).Perm (cmp2dark B A) := by
    apply List.perm_of_nodup_nodup_toFinset_eq (cmp2dark_nodup A B) (cmp2dark_nodup B A)
    ext x
    simp only [List.mem_toFinset, cmp2dark_mem]
    tauto
  exact List.eq_of_perm_of_sorted hperm (cmp2dark_sorted A B) (cmp2dark_sorted B A)

/- ------------------------------------------------------------------ -/
/- C5                                                                  -/
/- ------------------------------------------------------------------ -/

/-- C5: the proceed decision is the strict comparison
`confirmed/total < maxfraction`, overridden by a set force-proceed
global: it proceeds iff the fraction is strictly below the threshold or
the global is bound to `True`; at `total = 1000`, `maxfraction = 1/100`,
`confirmed = 9` proceeds for every state of the global, `confirmed = 10`
proceeds only when the global is bound to `True`, and a global bound to
`True` proceeds regardless of the counts. -/
theorem safeguard_strict_less_than (t : ℕ) (h : 0 < t) :
    (∀ c m fp, cc_proceed_cond c t m fp = Except.ok true ↔
      ((c : ℚ) / (t : ℚ) < m ∨ fp = some true))
  ∧ (∀ fp, cc_proceed_cond 9 1000 (1/100) fp = Except.ok true)
  ∧ (∀ fp, fp ≠ some true → ¬ cc_proceed_cond 10 1000 (1/100) fp = Except.ok true)
  ∧ (∀ c m, cc_proceed_cond c t m (some true) = Except.ok true) := by
  have key : ∀ c t' m fp, cc_proceed_cond c t' m fp = Except.ok true ↔
      ((c : ℚ) / (t' : ℚ) < m ∨ fp = some true) := by
    intro c t' m fp
    unfold cc_proceed_cond
    split_ifs with hlt
    · simp [hlt]
    · cases fp with
      | none => simp [hlt]
      | some b => cases b <;> simp [hlt]
  refine ⟨fun c m fp => key c t m fp, ?_, ?_, ?_⟩
  · intro fp
    rw [key]
    exact Or.inl (by norm_num)
  · intro fp hfp hcontra
    rcases (key 10 1000 (1/100) fp).mp hcontra with hlt | hforce
    · norm_num at hlt
    · exact hfp hforce
  · intro c m
    rcases lt_or_le ((c : ℚ) / (t : ℚ)) m with hlt | hge
    · exact (key c t m (some true)).mpr (Or.inl hlt)
    · exact (key c t m (some true)).mpr (Or.inr rfl)

/-- C5 witness: the boundary instances at `total = 1000`,
`maxfraction = 1/100`, evaluated through the theorem. -/
theorem safeguard_strict_less_than_witness :
    cc_proceed_cond 9 1000 (1/100) none = Except.ok true
  ∧ ¬ cc_proceed_cond 10 1000 (1/100) none = Except.ok true
  ∧ cc_proceed_cond 10 1000 (1/100) (some true) = Except.ok true :=
  ⟨(safeguard_strict_less_than 1000 (by decide)).2.1 none,
   (safeguard_strict_less_than 1000 (by decide)).2.2.1 none (by simp),
   (safeguard_strict_less_than 1000 (by decide)).2.2.2 10 (1/100)⟩

/- ------------------------------------------------------------------ -/
/- C1                                                                  -/
/- ------------------------------------------------------------------ -/

lemma format_3_2f_sixty : format_3_2f 60 = "60.00" := by
  unfold format_3_2f
  simp only [Rat.num_ofNat, Rat.den_ofNat]
  rfl

/-- C1 failing-input theorem (code bug): six confirmed-dark files of
ten total with threshold 0.1 is a 60 percent dark fraction, so the
claim expects the phase to be recorded `ABORTED` with a reason
containing `60.00%`.  In the source, however, `force_proceed` at
actions.py line 397 is an unbound module global, so once the fraction
is not below the threshold the condition itself raises `NameError`:
the function raises with the section still `started`, no `ABORTED`
status and no reason are ever written (first block), and the same
happens in `process_miss_files` (last conjunct).  Only the no-requests
half of the claim holds.  The second block shows that with the global
hypothetically bound to `False` the abort branch would do exactly what
the claim says, writing `ABORTED` and the reason `60.00% dark` - the
unreachable else branch at lines 442-458 is the claimed behaviour. -/
theorem dark_abort_unreachable_namerror :
    ((process_dark_files 0 1 "R_stats.json" "O_stats.json"
        ["f1", "f2", "f3", "f4", "f5", "f6"] ["f1", "f2", "f3", "f4", "f5", "f6"]
        (fun _ => true) (1/10) 10 none).phase.raised = true
  ∧ lookupStr (process_dark_files 0 1 "R_stats.json" "O_stats.json"
        ["f1", "f2", "f3", "f4", "f5", "f6"] ["f1", "f2", "f3", "f4", "f5", "f6"]
        (fun _ => true) (1/10) 10 none).phase.record "status" = some "started"
  ∧ lookupStr (process_dark_files 0 1 "R_stats.json" "O_stats.json"
        ["f1", "f2", "f3", "f4", "f5", "f6"] ["f1", "f2", "f3", "f4", "f5", "f6"]
        (fun _ => true) (1/10) 10 none).phase.record "aborted_reason" = none
  ∧ (process_dark_files 0 1 "R_stats.json" "O_stats.json"
        ["f1", "f2", "f3", "f4", "f5", "f6"] ["f1", "f2", "f3", "f4", "f5", "f6"]
        (fun _ => true) (1/10) 10 none).phase.requests = 0)
  ∧ (lookupStr (process_dark_files 0 1 "R_stats.json" "O_stats.json"
        ["f1", "f2", "f3", "f4", "f5", "f6"] ["f1", "f2", "f3", "f4", "f5", "f6"]
        (fun _ => true) (1/10) 10 (some false)).phase.record "status" = some "ABORTED"
  ∧ lookupStr (process_dark_files 0 1 "R_stats.json" "O_stats.json"
        ["f1", "f2", "f3", "f4", "f5", "f6"] ["f1", "f2", "f3", "f4", "f5", "f6"]
        (fun _ => true) (1/10) 10 (some false)).phase.record "aborted_reason"
      = some "60.00% dark"
  ∧ (process_dark_files 0 1 "R_stats.json" "O_stats.json"
        ["f1", "f2", "f3", "f4", "f5", "f6"] ["f1", "f2", "f3", "f4", "f5", "f6"]
        (fun _ => true) (1/10) 10 (some false)).phase.requests = 0)
  ∧ (process_miss_files 0 1 none ["m1", "m2", "m3", "m4", "m5", "m6"]
        (fun _ => true) (1/10) 10 none).raised = true := by
  have hlen : (cmp2dark ["f1", "f2", "f3", "f4", "f5", "f6"]
      ["f1", "f2", "f3", "f4", "f5", "f6"]).length = 6 := by
    rw [cmp2dark_length]; decide
  have hcondN : cc_proceed_cond (cmp2dark ["f1", "f2", "f3", "f4", "f5", "f6"]
      ["f1", "f2", "f3", "f4", "f5", "f6"]).length 10 (1/10) none = Except.error () := by
    rw [hlen]
    unfold cc_proceed_cond
    rw [if_neg (by norm_num)]
  have hcondF : cc_proceed_cond (cmp2dark ["f1", "f2", "f3", "f4", "f5", "f6"]
      ["f1", "f2", "f3", "f4", "f5", "f6"]).length 10 (1/10) (some false)
      = Except.ok false := by
    rw [hlen]
    unfold cc_proceed_cond
    rw [if_neg (by norm_num)]
  have hcondM : cc_proceed_cond (["m1", "m2", "m3", "m4", "m5", "m6"] : List String).length
      10 (1/10) none = Except.error () := by
    unfold cc_proceed_cond
    rw [if_neg (by norm_num)]
  have hdN := process_dark_files_raises 0 1 "R_stats.json" "O_stats.json"
    ["f1", "f2", "f3", "f4", "f5", "f6"] ["f1", "f2", "f3", "f4", "f5", "f6"]
    (fun _ => true) (1/10) 10 none hcondN
  have hdF := process_dark_files_aborts 0 1 "R_stats.json" "O_stats.json"
    ["f1", "f2", "f3", "f4", "f5", "f6"] ["f1", "f2", "f3", "f4", "f5", "f6"]
    (fun _ => true) (1/10) 10 (some false) hcondF
  have hmN := process_miss_files_raises 0 1 none ["m1", "m2", "m3", "m4", "m5", "m6"]
    (fun _ => true) (1/10) 10 none hcondM
  refine ⟨⟨?_, ?_, ?_, ?_⟩, ⟨?_, ?_, ?_⟩, ?_⟩
  · rw [hdN]
  · rw [hdN]; rfl
  · rw [hdN]; rfl
  · rw [hdN]
  · rw [hdF]; rfl
  · rw [hdF, hlen]
    have h60 : 100 * ((6 : ℕ) : ℚ) / ((10 : ℕ) : ℚ) = 60 := by norm_num
    rw [h60, format_3_2f_sixty]
    rfl
  · rw [hdF]
  · rw [hmN]

/- ------------------------------------------------------------------ -/
/- C2                                                                  -/
/- ------------------------------------------------------------------ -/

/-- C2 counterexample: a missing-file batch of two items in which the
first item fails (its catalog call raises).  The claim says the failure
does not stop the batch and the phase still reaches `done` with an
accurate completed count; in fact the exception aborts the function
(`raised`), the second item is never processed (`requests = 0`), and
the recorded status stays `started`, never `done`. -/
theorem miss_item_failure_stops_batch :
    (process_miss_files 0 1 none ["x", "y"] (fun s => s != "x") (1/2) 10 none).raised = true
  ∧ (process_miss_files 0 1 none ["x", "y"] (fun s => s != "x") (1/2) 10 none).requests = 0
  ∧ lookupStr (process_miss_files 0 1 none ["x", "y"] (fun s => s != "x")
      (1/2) 10 none).record "status" = some "started"
  ∧ lookupStr (process_miss_files 0 1 none ["x", "y"] (fun s => s != "x")
      (1/2) 10 none).record "status" ≠ some "done" := by
  have hcond : cc_proceed_cond (["x", "y"] : List String).length 10 (1/2) none
      = Except.ok true := by
    unfold cc_proceed_cond
    rw [if_pos (by norm_num)]
  have hbatch : batch_loop ((["x", "y"] : List String).map (fun s => s != "x"))
      = (0, false) := by decide
  refine ⟨?_, ?_, ?_, ?_⟩ <;>
    simp only [process_miss_files, hcond, hbatch] <;> decide

/-- C2 amended: a per-item failure is NOT isolated - it raises out of
the batch, the remaining items are unprocessed and the phase record
stays `started`; the phase reaches `done` with the accurate count only
when every item of the batch succeeds.  Stated for both phases over
their item-outcome collaborators. -/
theorem batch_failure_aborts_phase (t0 t1 : ℚ) (oe : Option String)
    (lines : List String) (okf : String → Bool) (m : ℚ) (total : ℕ)
    (fp : Option Bool)
    (hproceed : cc_proceed_cond lines.length total m fp = Except.ok true)
    (latest_run oldenough_run : String) (dl ol : List String)
    (okq : String → Bool)
    (hproceedD : cc_proceed_cond (cmp2dark dl ol).length total m fp = Except.ok true) :
    ((lines.map okf).all id = true →
        lookupStr (process_miss_files t0 t1 oe lines okf m total fp).record "status"
          = some "done"
      ∧ lookupNum (process_miss_files t0 t1 oe lines okf m total fp).record "confirmed_miss"
          = some (lines.length : ℚ)
      ∧ (process_miss_files t0 t1 oe lines okf m total fp).requests = lines.length
      ∧ (process_miss_files t0 t1 oe lines okf m total fp).raised = false)
  ∧ ((lines.map okf).all id = false →
        lookupStr (process_miss_files t0 t1 oe lines okf m total fp).record "status"
          = some "started"
      ∧ (process_miss_files t0 t1 oe lines okf m total fp).raised = true
      ∧ (process_miss_files t0 t1 oe lines okf m total fp).requests
          = (((lines.map okf).takeWhile id).length))
  ∧ (((cmp2dark dl ol).map okq).all id = true →
        lookupStr (process_dark_files t0 t1 latest_run oldenough_run dl ol okq
          m total fp).phase.record "status" = some "done"
      ∧ (process_dark_files t0 t1 latest_run oldenough_run dl ol okq
          m total fp).phase.requests = (cmp2dark dl ol).length
      ∧ (process_dark_files t0 t1 latest_run oldenough_run dl ol okq
          m total fp).phase.raised = false)
  ∧ (((cmp2dark dl ol).map okq).all id = false →
        lookupStr (process_dark_files t0 t1 latest_run oldenough_run dl ol okq
          m total fp).phase.record "status" = some "started"
      ∧ (process_dark_files t0 t1 latest_run oldenough_run dl ol okq
          m total fp).phase.raised = true) := by
  refine ⟨?_, ?_, ?_, ?_⟩
  · intro hall
    have hb : batch_loop (lines.map okf) = ((lines.map okf).length, true) :=
      batch_loop_all _ hall
    rw [List.length_map] at hb
    simp only [process_miss_files, hproceed, hb]
    refine ⟨rfl, rfl, rfl, rfl⟩
  · intro hfail
    have hb : batch_loop (lines.map okf)
        = (((lines.map okf).takeWhile id).length, false) := by
      rw [batch_loop_eq, hfail]
    simp only [process_miss_files, hproceed, hb]
    refine ⟨rfl, rfl, rfl⟩
  · intro hall
    have hb : batch_loop ((cmp2dark dl ol).map okq)
        = (((cmp2dark dl ol).map okq).length, true) := batch_loop_all _ hall
    rw [List.length_map] at hb
    simp only [process_dark_files, hproceedD, hb]
    refine ⟨rfl, rfl, rfl⟩
  · intro hfail
    have hb : batch_loop ((cmp2dark dl ol).map okq)
        = ((((cmp2dark dl ol).map okq).takeWhile id).length, false) := by
      rw [batch_loop_eq, hfail]
    simp only [process_dark_files, hproceedD, hb]
    refine ⟨rfl, rfl⟩

/-- C2 witness: the amended theorem applied at empty batches (fraction
0 of 1, threshold 1, which proceeds). -/
theorem batch_failure_aborts_phase_witness :
    lookupStr (process_miss_files 0 1 none [] (fun _ => true) 1 1 none).record "status"
      = some "done"
  ∧ (process_miss_files 0 1 none [] (fun _ => true) 1 1 none).requests = 0 :=
  ⟨((batch_failure_aborts_phase 0 1 none [] (fun _ => true) 1 1 none
      (by simp [cc_proceed_cond]) "r" "o" [] [] (fun _ => true)
      (by simp [cc_proceed_cond, cmp2dark])).1 rfl).1,
   ((batch_failure_aborts_phase 0 1 none [] (fun _ => true) 1 1 none
      (by simp [cc_proceed_cond]) "r" "o" [] [] (fun _ => true)
      (by simp [cc_proceed_cond, cmp2dark])).1 rfl).2.2.1⟩

/- ------------------------------------------------------------------ -/
/- C3                                                                  -/
/- ------------------------------------------------------------------ -/

/-- C3 counterexample: two endpoints where the first raises.  The claim
says the remaining endpoints of the same cycle are still processed; in
fact `deckard_loop` has no `try` inside its `for`, so only 1 of the 2
endpoints is begun and the loop does not complete - the exception is
caught one level up, in `actions_loop`, whose cycle survives. -/
theorem endpoint_failure_aborts_cycle :
    (deckard_loop_run [false, true]).1 = 1
  ∧ (deckard_loop_run [false, true]).2 = false
  ∧ (1 : ℕ) < ([false, true] : List Bool).length
  ∧ (actions_loop_cycle [false, true]).2 = true := by decide

/-- C3 amended: an unhandled exception while processing one endpoint
aborts the remaining endpoints of the current cycle (the loop stops at
the first failing endpoint), but it is caught and logged at the
`actions_loop` level, so the cycle itself - and hence the daemon and
its next cycle - survives. -/
theorem endpoint_loop_failure_behaviour (outs : List Bool) :
    (outs.all id = true → deckard_loop_run outs = (outs.length, true))
  ∧ (outs.all id = false →
        (deckard_loop_run outs).2 = false
      ∧ (deckard_loop_run outs).1 = (outs.takeWhile id).length + 1
      ∧ (deckard_loop_run outs).1 ≤ outs.length)
  ∧ (actions_loop_cycle outs).2 = true := by
  refine ⟨?_, ?_, rfl⟩
  · intro hall
    induction outs with
    | nil => rfl
    | cons b rest ih =>
      rw [List.all_cons] at hall
      rcases Bool.and_eq_true_iff.mp hall with ⟨hb, hrest⟩
      cases b
      · exact absurd hb (by decide)
      · simp [deckard_loop_run, ih hrest]
  · intro hfail
    induction outs with
    | nil => exact absurd hfail (by decide)
    | cons b rest ih =>
      rw [List.all_cons] at hfail
      cases b
      · exact ⟨rfl, rfl, Nat.succ_le_succ (Nat.zero_le _)⟩
      · simp only [id_eq, Bool.true_and] at hfail
        obtain ⟨h2, h1, hle⟩ := ih hfail
        refine ⟨h2, ?_, ?_⟩
        · show (deckard_loop_run rest).1 + 1 = (rest.takeWhile id).length + 1 + 1
          rw [h1]
        · exact Nat.succ_le_succ hle

/-- C3 witness: the amended theorem evaluated at the two-endpoint cycle
whose first endpoint fails. -/
theorem endpoint_loop_failure_behaviour_witness :
    (deckard_loop_run [false, true]).2 = false
  ∧ (deckard_loop_run [false, true]).1 = (([false, true] : List Bool).takeWhile id).length + 1 :=
  ⟨((endpoint_loop_failure_behaviour [false, true]).2.1 rfl).1,
   ((endpoint_loop_failure_behaviour [false, true]).2.1 rfl).2.1⟩

/- ------------------------------------------------------------------ -/
/- C4                                                                  -/
/- ------------------------------------------------------------------ -/

lemma select_oldenough_some : ∀ (d : List (String × Int)) (m : Int),
    List.Pairwise (fun a b : String × Int => a.2 ≤ b.2) d →
    ∀ r, select_oldenough d m = some r →
    ∃ a, (r, a) ∈ d ∧ m < a ∧ ∀ p ∈ d, m < p.2 → a ≤ p.2
  | [], m, _, r, hr => by simp [select_oldenough] at hr
  | kv :: rest, m, hsorted, r, hr => by
    by_cases hm : m < kv.2
    · have hsel : select_oldenough (kv :: rest) m = some kv.1 := by
        simp [select_oldenough, List.filter_cons, hm]
      rw [hsel] at hr
      obtain rfl : kv.1 = r := Option.some.injEq _ _ ▸ hr
      refine ⟨kv.2, List.mem_cons_self _ _, hm, ?_⟩
      intro p hp _
      rcases List.mem_cons.mp hp with rfl | hp2
      · exact le_refl _
      · exact (List.pairwise_cons.mp hsorted).1 p hp2
    · have hsel : select_oldenough (kv :: rest) m = select_oldenough rest m := by
        simp [select_oldenough, List.filter_cons, hm]
      rw [hsel] at hr
      obtain ⟨a, hmem, hma, hmin⟩ :=
        select_oldenough_some rest m (List.pairwise_cons.mp hsorted).2 r hr
      refine ⟨a, List.mem_cons_of_mem _ hmem, hma, ?_⟩
      intro p hp hmp
      rcases List.mem_cons.mp hp with rfl | hp2
      · exact absurd hmp hm
      · exact hmin p hp2 hmp

lemma select_oldenough_none (d : List (String × Int)) (m : Int) :
    select_oldenough d m = none ↔ ∀ p ∈ d, p.2 ≤ m := by
  unfold select_oldenough
  rw [List.head?_eq_none_iff, List.map_eq_nil_iff, List.filter_eq_nil_iff]
  constructor
  · intro h p hp
    exact le_of_not_lt (fun hc => h p hp (by simpa using hc))
  · intro h p hp
    simpa using not_lt_of_le (h p hp)

/-- C4 counterexample: an endpoint with its latest run and one run
exactly `minagedark = 28` days older.  The claim (at least
`minAgeDark` days older, i.e. an age of 28 qualifies) would select that
run; the code filters with the strict comparison `d[k] > minagedark`
(actions.py lines 645-647), selects nothing, and skips dark
processing, even though a run of age at least 28 exists (second
conjunct). -/
theorem minagedark_boundary_run_not_selected :
    select_oldenough (list_runs_by_age
      [("RSE_2024_01_10_00_00", 100), ("RSE_2023_12_13_00_00", 72)] 100) 28 = none
  ∧ ((list_runs_by_age
      [("RSE_2024_01_10_00_00", 100), ("RSE_2023_12_13_00_00", 72)] 100).filter
      (fun kv => 28 ≤ kv.2)) ≠ [] := by decide

/-- C4 amended: the chosen comparison run is the newest run STRICTLY
MORE than `minagedark` days older than the latest run, and when no run
is strictly older than that, none is selected (and `deckard` then skips
dark processing).  Stated over any age mapping listed newest-first
(ages ascending, which `list_runs_by_age` produces for the
timestamp-encoding file names); the spec examples with ages
0/5/10/40 days and thresholds 28 and 50 follow. -/
theorem comparison_run_selection (d : List (String × Int)) (m : Int)
    (hsorted : List.Pairwise (fun a b : String × Int => a.2 ≤ b.2) d) :
    (∀ r, select_oldenough d m = some r →
       ∃ a, (r, a) ∈ d ∧ m < a ∧ ∀ p ∈ d, m < p.2 → a ≤ p.2)
  ∧ (select_oldenough d m = none ↔ ∀ p ∈ d, p.2 ≤ m)
  ∧ select_oldenough (list_runs_by_age
      [("RSE_2024_01_10_00_00", 100), ("RSE_2024_01_05_00_00", 95),
       ("RSE_2023_12_31_00_00", 90), ("RSE_2023_12_01_00_00", 60)] 100) 28
      = some "RSE_2023_12_01_00_00"
  ∧ select_oldenough (list_runs_by_age
      [("RSE_2024_01_10_00_00", 100), ("RSE_2024_01_05_00_00", 95),
       ("RSE_2023_12_31_00_00", 90), ("RSE_2023_12_01_00_00", 60)] 100) 50
      = none :=
  ⟨select_oldenough_some d m hsorted, select_oldenough_none d m,
   by decide, by decide⟩

/-- C4 witness: the general selection theorem applied to the concrete
newest-first mapping with ages 0 and 28 at threshold 28. -/
theorem comparison_run_selection_witness :
    select_oldenough [("RSE_2024_01_10_00_00", (0 : Int)), ("RSE_2023_12_13_00_00", 28)] 28
      = none ↔
    ∀ p ∈ [("RSE_2024_01_10_00_00", (0 : Int)), ("RSE_2023_12_13_00_00", 28)], p.2 ≤ 28 :=
  (comparison_run_selection
    [("RSE_2024_01_10_00_00", 0), ("RSE_2023_12_13_00_00", 28)] 28 (by decide)).2.1

/- ------------------------------------------------------------------ -/
/- C6                                                                  -/
/- ------------------------------------------------------------------ -/

/-- C6: the idempotency gate.  First block: whenever the latest run
status record already contains a `cc_dark` or `cc_miss` key
(`was_cc_attempted` is `some true`) and force-proceed is `false`,
`deckard` takes the `Nothing to do here` branch - no phase starts, no
quarantine or invalidation request is issued, and the record is left
unchanged; re-invoking the cycle on the same unmodified run therefore
does nothing.  Second block: whenever an invocation does process a run,
the resulting status record contains a `cc_dark` or `cc_miss` key, so
the gate fires on the next invocation. -/
theorem deckard_idempotency_gate
    (scanner_files dbb dba : ℕ) (minagedark : Int) (rba : List (String × Int))
    (mdark mmiss : ℚ) (fp : Option Bool) (lr : String)
    (dlo : String → List String) (ml : List String)
    (okq oki : String → Bool) (t0 t1 : ℚ) :
    (∀ doc : JDoc, was_cc_attempted (some doc) = some true →
        deckard (some doc) scanner_files dbb dba minagedark rba mdark mmiss
          false fp lr dlo ml okq oki t0 t1
          = ⟨false, none, none, doc⟩
      ∧ issued_requests (deckard (some doc) scanner_files dbb dba minagedark rba
          mdark mmiss false fp lr dlo ml okq oki t0 t1) = 0)
  ∧ (∀ (s : Option JDoc) (force : Bool),
      (deckard s scanner_files dbb dba minagedark rba mdark mmiss force fp
        lr dlo ml okq oki t0 t1).processed = true →
      was_cc_attempted (some (deckard s scanner_files dbb dba minagedark rba mdark
        mmiss force fp lr dlo ml okq oki t0 t1).stats_after) = some true) := by
  constructor
  · intro doc hdoc
    have hgate : deckard_gate (max scanner_files (max dbb dba))
        (was_cc_attempted (some doc)) false = false := by
      rw [hdoc]
      unfold deckard_gate
      rw [show (((some true : Option Bool) == some false) || false) = false from rfl,
        Bool.and_false]
    have hd : deckard (some doc) scanner_files dbb dba minagedark rba mdark mmiss
        false fp lr dlo ml okq oki t0 t1 = ⟨false, none, none, doc⟩ := by
      simp only [deckard, hgate]
      rfl
    exact ⟨hd, by rw [hd]; rfl⟩
  · intro s force hproc
    by_cases hg : deckard_gate (max scanner_files (max dbb dba))
        (was_cc_attempted s) force = true
    · cases hsel : select_oldenough rba minagedark with
      | none =>
        have h1 : List.lookup "cc_miss"
            (dictUpdate (s.getD [])
              [("cc_miss", JVal.obj (process_miss_files t0 t1 none ml oki mmiss
                (max scanner_files (max dbb dba)) fp).record)])
            = some (JVal.obj (process_miss_files t0 t1 none ml oki mmiss
                (max scanner_files (max dbb dba)) fp).record) := rfl
        simp only [deckard, hg, hsel, if_true]
        simp [was_cc_attempted, h1]
      | some oer =>
        cases hr : (process_dark_files t0 t1 lr oer (dlo lr) (dlo oer) okq mdark
            (max scanner_files (max dbb dba)) fp).phase.raised with
        | true =>
          have h1 : List.lookup "cc_dark"
              (dictUpdate (s.getD [])
                [("cmp2dark", JVal.obj (process_dark_files t0 t1 lr oer (dlo lr)
                    (dlo oer) okq mdark (max scanner_files (max dbb dba)) fp).cmp2dark_record),
                 ("cc_dark", JVal.obj (process_dark_files t0 t1 lr oer (dlo lr)
                    (dlo oer) okq mdark (max scanner_files (max dbb dba)) fp).phase.record)])
              = some (JVal.obj (process_dark_files t0 t1 lr oer (dlo lr)
                  (dlo oer) okq mdark (max scanner_files (max dbb dba)) fp).phase.record) := rfl
          simp only [deckard, hg, hsel, hr, if_true]
          simp [was_cc_attempted, h1]
        | false =>
          have h1 : List.lookup "cc_dark"
              (dictUpdate
                (dictUpdate (s.getD [])
                  [("cmp2dark", JVal.obj (process_dark_files t0 t1 lr oer (dlo lr)
                      (dlo oer) okq mdark (max scanner_files (max dbb dba)) fp).cmp2dark_record),
                   ("cc_dark", JVal.obj (process_dark_files t0 t1 lr oer (dlo lr)
                      (dlo oer) okq mdark (max scanner_files (max dbb dba)) fp).phase.record)])
                [("cc_miss", JVal.obj (process_miss_files t0 t1 (some oer) ml oki mmiss
                    (max scanner_files (max dbb dba)) fp).record)])
              = some (JVal.obj (process_dark_files t0 t1 lr oer (dlo lr)
                  (dlo oer) okq mdark (max scanner_files (max dbb dba)) fp).phase.record) := rfl
          simp only [deckard, hg, hsel, hr, if_true]
          simp [was_cc_attempted, h1]
    · rw [Bool.not_eq_true] at hg
      simp only [deckard, hg] at hproc
      exact absurd hproc (by simp)

/-- C6 witness: a record that already carries a `cc_dark` key, at
force-proceed `false`: the second invocation does nothing. -/
theorem deckard_idempotency_gate_witness :
    deckard (some [("cc_dark", JVal.nul)]) 5 0 0 28 [] 1 1 false none "r"
      (fun _ => []) [] (fun _ => true) (fun _ => true) 0 1
      = ⟨false, none, none, [("cc_dark", JVal.nul)]⟩
  ∧ issued_requests (deckard (some [("cc_dark", JVal.nul)]) 5 0 0 28 [] 1 1 false
      none "r" (fun _ => []) [] (fun _ => true) (fun _ => true) 0 1) = 0 :=
  (deckard_idempotency_gate 5 0 0 28 [] 1 1 none "r" (fun _ => []) []
    (fun _ => true) (fun _ => true) 0 1).1 [("cc_dark", JVal.nul)] rfl

/- ------------------------------------------------------------------ -/
/- C9                                                                  -/
/- ------------------------------------------------------------------ -/

/-- C9: when the maximum of the scanner count and the two dbdump counts
is zero, the `max_files_at_site > 0` conjunct of the gate fails, so the
run is skipped entirely: neither phase starts, no request is issued,
the stats record is unchanged - and since the phases are where the
divisions by `max_files_at_site` happen, no division by zero occurs. -/
theorem zero_total_files_skips
    (stats_doc : Option JDoc) (scanner_files dbb dba : ℕ) (minagedark : Int)
    (rba : List (String × Int)) (mdark mmiss : ℚ) (force : Bool) (fp : Option Bool)
    (lr : String) (dlo : String → List String) (ml : List String)
    (okq oki : String → Bool) (t0 t1 : ℚ)
    (h : max scanner_files (max dbb dba) = 0) :
    deckard stats_doc scanner_files dbb dba minagedark rba mdark mmiss force fp
      lr dlo ml okq oki t0 t1
      = ⟨false, none, none, stats_doc.getD []⟩
  ∧ (deckard stats_doc scanner_files dbb dba minagedark rba mdark mmiss force fp
      lr dlo ml okq oki t0 t1).cc_dark = none
  ∧ (deckard stats_doc scanner_files dbb dba minagedark rba mdark mmiss force fp
      lr dlo ml okq oki t0 t1).cc_miss = none
  ∧ issued_requests (deckard stats_doc scanner_files dbb dba minagedark rba mdark
      mmiss force fp lr dlo ml okq oki t0 t1) = 0 := by
  have hgate : deckard_gate (max scanner_files (max dbb dba))
      (was_cc_attempted stats_doc) force = false := by
    rw [h]; rfl
  have hd : deckard stats_doc scanner_files dbb dba minagedark rba mdark mmiss force
      fp lr dlo ml okq oki t0 t1 = ⟨false, none, none, stats_doc.getD []⟩ := by
    simp only [deckard, hgate]
    rfl
  exact ⟨hd, by rw [hd], by rw [hd], by rw [hd]; rfl⟩

/-- C9 witness: all three counts zero for a run with a nonempty missing
list - nothing runs. -/
theorem zero_total_files_skips_witness :
    deckard (some []) 0 0 0 28 [("RSE_2023_12_01_00_00", 40)] 1 1 true none "r"
      (fun _ => ["d1"]) ["m1"] (fun _ => true) (fun _ => true) 0 1
      = ⟨false, none, none, []⟩ :=
  (zero_total_files_skips (some []) 0 0 0 28 [("RSE_2023_12_01_00_00", 40)] 1 1
    true none "r" (fun _ => ["d1"]) ["m1"] (fun _ => true) (fun _ => true) 0 1 rfl).1

/- ------------------------------------------------------------------ -/
/- C8                                                                  -/
/- ------------------------------------------------------------------ -/

/-- C8 counterexample: prior status-record content that reads fine but
is not valid JSON (a parser that, like `json.loads`, accepts the empty
object text and rejects the corrupt text).  The claim says the
read-modify-write treats content that fails to parse as an empty base
document and still completes the write; in the code the parse sits
outside the `try` (only the read is guarded, actions.py lines 156-162),
so `json.loads` raises and no write happens at all: the result is
`none` (exception), not a completed write. -/
theorem corrupt_prior_content_aborts_save :
    stats_save (some "corrupt")
      (fun s => if s = "\x7b\x7d" then some [] else none)
      [("cc_dark", JVal.nul)] = none := rfl

/-- C8 amended: an ABSENT or unreadable prior file (a failed read, the
case the `except` actually covers) degrades to the empty base document
and the merge-write completes, and so does an empty existing file (the
`data or` default); but prior content that is read successfully and
fails to parse raises out of `save`, aborting the write. -/
theorem stats_save_read_guard_only (parse : String → Option JDoc) (d : JDoc)
    (hempty : parse "\x7b\x7d" = some []) :
    stats_save none parse d = some (dictUpdate [] d)
  ∧ stats_save (some "") parse d = some (dictUpdate [] d)
  ∧ (∀ c, ¬ c = "" → parse c = none → stats_save (some c) parse d = none) := by
  refine ⟨?_, ?_, ?_⟩
  · simp only [stats_save, Option.getD, eq_self_iff_true, if_true, hempty]
  · simp only [stats_save, Option.getD, eq_self_iff_true, if_true, hempty]
  · intro c hc hparse
    simp only [stats_save, Option.getD, if_neg hc, hparse]

/-- C8 witness: the amended theorem at a concrete parser accepting only
the empty-object text, with a concrete corrupt prior content. -/
theorem stats_save_read_guard_only_witness :
    stats_save none (fun s => if s = "\x7b\x7d" then some [] else none)
      [("k", JVal.num 1)] = some (dictUpdate [] [("k", JVal.num 1)])
  ∧ stats_save (some "not json")
      (fun s => if s = "\x7b\x7d" then some [] else none)
      [("k", JVal.num 1)] = none :=
  ⟨(stats_save_read_guard_only (fun s => if s = "\x7b\x7d" then some [] else none)
      [("k", JVal.num 1)] rfl).1,
   (stats_save_read_guard_only (fun s => if s = "\x7b\x7d" then some [] else none)
      [("k", JVal.num 1)] rfl).2.2 "not json" (by decide) rfl⟩

/- ------------------------------------------------------------------ -/
/- C10                                                                 -/
/- ------------------------------------------------------------------ -/

/-- C10: after a missing-file phase that proceeds and invalidates `n`
replicas, the `done` update (actions.py line 536) stores `n` under the
key `confirmed_miss`, while `confirmed_miss_files` - initialised to 0
at phase start (line 487) and the key the abort branch writes
(line 554) - keeps its value 0; conversely, on the abort path (second
block) only `confirmed_miss_files` is written and no `confirmed_miss`
key exists at all.  The success path and the abort path record the
count under different keys. -/
theorem miss_count_key_asymmetry (t0 t1 : ℚ) (oe : Option String)
    (lines : List String) (okf : String → Bool) (m : ℚ) (total : ℕ)
    (fp : Option Bool) (n : ℕ)
    (hok : cc_proceed_cond lines.length total m fp = Except.ok true)
    (hall : batch_loop (lines.map okf) = (n, true)) :
    (lookupNum (process_miss_files t0 t1 oe lines okf m total fp).record
        "confirmed_miss" = some (n : ℚ)
  ∧ lookupNum (process_miss_files t0 t1 oe lines okf m total fp).record
        "confirmed_miss_files" = some 0
  ∧ lookupStr (process_miss_files t0 t1 oe lines okf m total fp).record
        "status" = some "done"
  ∧ (process_miss_files t0 t1 oe lines okf m total fp).requests = n)
  ∧ (∀ (t0' t1' : ℚ) (oe' : Option String) (lines' : List String)
        (okf' : String → Bool) (m' : ℚ) (total' : ℕ) (fp' : Option Bool),
      cc_proceed_cond lines'.length total' m' fp' = Except.ok false →
        lookupNum (process_miss_files t0' t1' oe' lines' okf' m' total' fp').record
            "confirmed_miss_files" = some 0
      ∧ (process_miss_files t0' t1' oe' lines' okf' m' total' fp').record.lookup
            "confirmed_miss" = none
      ∧ lookupStr (process_miss_files t0' t1' oe' lines' okf' m' total' fp').record
            "status" = some "ABORTED") := by
  constructor
  · rw [process_miss_files_done t0 t1 oe lines okf m total fp n hok hall]
    exact ⟨rfl, rfl, rfl, rfl⟩
  · intro t0' t1' oe' lines' okf' m' total' fp' habort
    rw [process_miss_files_aborts t0' t1' oe' lines' okf' m' total' fp' habort]
    exact ⟨rfl, rfl, rfl⟩

/-- C10 witness: an empty missing list at threshold 1 (fraction 0 of 1,
which proceeds with 0 invalidations) for the success block, and a
one-item list at threshold 0 with the global bound to `False` for the
abort block. -/
theorem miss_count_key_asymmetry_witness :
    lookupNum (process_miss_files 0 1 none [] (fun _ => true) 1 1 none).record
        "confirmed_miss" = some 0
  ∧ lookupNum (process_miss_files 0 1 none [] (fun _ => true) 1 1 none).record
        "confirmed_miss_files" = some 0
  ∧ lookupNum (process_miss_files 0 1 none ["x"] (fun _ => true) 0 1
        (some false)).record "confirmed_miss_files" = some 0
  ∧ (process_miss_files 0 1 none ["x"] (fun _ => true) 0 1
        (some false)).record.lookup "confirmed_miss" = none :=
  ⟨((miss_count_key_asymmetry 0 1 none [] (fun _ => true) 1 1 none 0
      (by simp [cc_proceed_cond]) rfl).1).1,
   ((miss_count_key_asymmetry 0 1 none [] (fun _ => true) 1 1 none 0
      (by simp [cc_proceed_cond]) rfl).1).2.1,
   ((miss_count_key_asymmetry 0 1 none [] (fun _ => true) 1 1 none 0
      (by simp [cc_proceed_cond]) rfl).2 0 1 none ["x"] (fun _ => true) 0 1
      (some false) (by simp [cc_proceed_cond])).1,
   ((miss_count_key_asymmetry 0 1 none [] (fun _ => true) 1 1 none 0
      (by simp [cc_proceed_cond]) rfl).2 0 1 none ["x"] (fun _ => true) 0 1
      (some false) (by simp [cc_proceed_cond])).2.1⟩
